import Mathlib

/-!
# Verification of the MediRank hospital-ranking application (src/app2.py)

A shallow embedding of the application's deterministic core: the static
credential gate and session state machine (lines 40-74), the pickle artifact
loaders (lines 7-35), and the provider-ranking pipeline run by the
`Find Best Hospitals` button (lines 96-152).

Conventions of the embedding:
* `st.session_state` is a record with possibly-absent keys
  (`RawSessionState`); once both keys are set it is read as a `Session`.
* Python exceptions are `Except` errors; a `try/except` is a `match` on the
  protected computation.
* The pickled regression models are opaque batch predictors
  `List CandidateRow → Except String (List Int)`: one predicted cost per row,
  or a raised exception carried as a message.  Predicted costs are integers
  standing in for the model's real-valued outputs; every property proved
  below is about their order only.
* A fitted sklearn `LabelEncoder` is abstracted to its ordered `classes_`
  list; `transform` is the index of a label in that list and raises on an
  unseen label.
-/

set_option maxRecDepth 8192

namespace HealthcareAnalysis

/-! ## Credential gate and session state (src/app2.py lines 40-74) -/

/-- The static credential store `USER_CREDENTIALS` (lines 40-43). -/
def USER_CREDENTIALS : List (String × String) :=
  [("admin", "password123"), ("user", "medi123")]

/-- The session once both keys are present: `st.session_state["logged_in"]`
and `st.session_state["username"]`. -/
structure Session where
  logged_in : Bool
  username : Option String
deriving DecidableEq, Repr

/-- `st.session_state` with possibly-absent keys, as seen by
`initialize_session_state` (lines 45-50). -/
structure RawSessionState where
  logged_in : Option Bool
  username : Option (Option String)
deriving DecidableEq, Repr

/-- `st.session_state` at process start: neither key set. -/
def empty_raw : RawSessionState := { logged_in := none, username := none }

/-- `initialize_session_state` (lines 45-50): each key is set to its default
(`False`, `None`) only when absent, and kept otherwise.  (The source's name
is shortened here.) -/
def init_session_state (r : RawSessionState) : RawSessionState :=
  { logged_in := some (r.logged_in.getD false),
    username := some (r.username.getD none) }

/-- Read a raw state whose keys are set as a `Session`. -/
def session_of (r : RawSessionState) : Session :=
  { logged_in := r.logged_in.getD false, username := r.username.getD none }

/-- View a `Session` as the raw state with both keys set. -/
def raw_of (s : Session) : RawSessionState :=
  { logged_in := some s.logged_in, username := some s.username }

/-- The credential test on line 61:
`username in USER_CREDENTIALS and USER_CREDENTIALS[username] == password`. -/
def authCheck (username password : String) : Bool :=
  match USER_CREDENTIALS.lookup username with
  | some stored => stored == password
  | none => false

/-- The `Login` button body of `login_page` (lines 60-68): on a credential
match the session becomes logged-in with this username; otherwise only an
error is displayed and the session is untouched. -/
def login_attempt (s : Session) (username password : String) : Session :=
  if authCheck username password then
    { logged_in := true, username := some username }
  else s

/-- `logout` (lines 70-74): unconditional reset of both session keys. -/
def logout (_s : Session) : Session :=
  { logged_in := false, username := none }

/-- The first session value of a run: `initialize_session_state` applied to
the empty `st.session_state` (line 157). -/
def initial_session : Session := session_of (init_session_state empty_raw)

/-- Session states reachable in a run of the app: the initialized start
state, closed under login attempts, logout clicks, and the re-run of
`initialize_session_state` at the top of the script. -/
inductive Reachable : Session → Prop
  | start : Reachable initial_session
  | login (s : Session) (u p : String) :
      Reachable s → Reachable (login_attempt s u p)
  | logout_click (s : Session) : Reachable s → Reachable (logout s)
  | reinit (s : Session) :
      Reachable s → Reachable (session_of (init_session_state (raw_of s)))

/-! ## Artifact loaders (src/app2.py lines 7-35) -/

/-- The Python exceptions a file open/unpickle can raise, as far as the
loaders distinguish them: `FileNotFoundError` (file absent) is caught,
anything else — e.g. `PermissionError` for a present but unreadable file —
is not. -/
inductive PyExc
  | fileNotFound
  | permissionError
deriving DecidableEq, Repr

/-- `load_models` (lines 7-18) over an abstract filesystem `fs` mapping a
path to its unpickled content or to the exception reading it raises.  The
`try` block opens the two model files in order; only `FileNotFoundError` is
caught (returning the `(None, None)` sentinel after `st.error`); any other
exception escapes the function. -/
def load_models {α : Type} (fs : String → Except PyExc α) :
    Except PyExc (Option α × Option α) :=
  match fs "inpatient_model.pkl" with
  | Except.error PyExc.fileNotFound => Except.ok (none, none)
  | Except.error e => Except.error e
  | Except.ok inpatient_model =>
    match fs "outpatient_model.pkl" with
    | Except.error PyExc.fileNotFound => Except.ok (none, none)
    | Except.error e => Except.error e
    | Except.ok outpatient_model =>
        Except.ok (some inpatient_model, some outpatient_model)

/-- `load_encoders` (lines 20-35): same shape over the four encoder files,
with the `(None, None, None, None)` sentinel. -/
def load_encoders {α : Type} (fs : String → Except PyExc α) :
    Except PyExc (Option α × Option α × Option α × Option α) :=
  match fs "le_drg.pkl" with
  | Except.error PyExc.fileNotFound => Except.ok (none, none, none, none)
  | Except.error e => Except.error e
  | Except.ok inpatient_le_drg =>
    match fs "le_state.pkl" with
    | Except.error PyExc.fileNotFound => Except.ok (none, none, none, none)
    | Except.error e => Except.error e
    | Except.ok inpatient_le_state =>
      match fs "le_drg_outpatient.pkl" with
      | Except.error PyExc.fileNotFound => Except.ok (none, none, none, none)
      | Except.error e => Except.error e
      | Except.ok outpatient_le_apc =>
        match fs "le_state_outpatient.pkl" with
        | Except.error PyExc.fileNotFound => Except.ok (none, none, none, none)
        | Except.error e => Except.error e
        | Except.ok outpatient_le_state =>
            Except.ok (some inpatient_le_drg, some inpatient_le_state,
              some outpatient_le_apc, some outpatient_le_state)

/-! ## Ranking pipeline (src/app2.py lines 96-152) -/

/-- The two options of the service-type selector (line 97). -/
inductive ServiceType
  | Inpatient
  | Outpatient
deriving DecidableEq, Repr

/-- A fitted sklearn `LabelEncoder`, abstracted to its ordered `classes_`
list. -/
abbrev LabelEncoder := List String

/-- `encoder.transform([label])[0]` (lines 118-123): the position of `label`
in the encoder's `classes_`; an unseen label raises a `ValueError`. -/
def transform (le : LabelEncoder) (label : String) : Except String Nat :=
  match List.findIdx? (fun c => c == label) le with
  | some k => Except.ok k
  | none => Except.error ("y contains previously unseen labels: " ++ label)

/-- One row of the `input_data` table (lines 127-133). -/
structure CandidateRow where
  Procedure : Nat
  Provider_Id : Nat
  Provider_State : Nat
  Total_Discharge : Nat
  Avg_covered_charges : Nat
deriving DecidableEq, Repr

/-- One row of `top_3_hospitals` (line 145). -/
structure RankedRow where
  Rank : Nat
  Provider_Id : Nat
  Average_Total_Payments : Int
deriving DecidableEq, Repr

/-- A batch regression model: one predicted cost per input row, or a raised
exception carried as its message. -/
abbrev Model := List CandidateRow → Except String (List Int)

/-- The artifacts available inside `main_app` after loading (lines 86-87). -/
structure Artifacts where
  inpatient_model : Model
  outpatient_model : Model
  inpatient_le_drg : LabelEncoder
  inpatient_le_state : LabelEncoder
  outpatient_le_apc : LabelEncoder
  outpatient_le_state : LabelEncoder

/-- `provider_ids = list(range(520000, 520100))` (line 111). -/
def provider_ids : List Nat := List.range' 520000 100

/-- The candidate table `input_data` (lines 127-133), read row-wise: one row
per provider id, all sharing the encoded procedure, the encoded state, and
the two placeholder constants. -/
def input_data (encoded_procedure encoded_state : Nat) : List CandidateRow :=
  provider_ids.map fun pid =>
    { Procedure := encoded_procedure, Provider_Id := pid,
      Provider_State := encoded_state, Total_Discharge := 100,
      Avg_covered_charges := 15000 }

/-- The (model, procedure encoder, state encoder) triple chosen for the
selected service type (lines 99-104 and 117-124). -/
def select_artifacts (a : Artifacts) :
    ServiceType → Model × LabelEncoder × LabelEncoder
  | ServiceType.Inpatient =>
      (a.inpatient_model, a.inpatient_le_drg, a.inpatient_le_state)
  | ServiceType.Outpatient =>
      (a.outpatient_model, a.outpatient_le_apc, a.outpatient_le_state)

/-- The column assignment
`input_data["Average_Total_Payments"] = model.predict(input_data)`
(line 136), pairing each row with its predicted cost.  pandas raises when
the assigned vector's length differs from the table's. -/
def assign_payments (rows : List CandidateRow) (preds : List Int) :
    Except String (List (CandidateRow × Int)) :=
  if preds.length = rows.length then Except.ok (rows.zip preds)
  else Except.error "Length of values does not match length of index"

/-- `input_data_sorted["Rank"] = input_data_sorted.index + 1` and
`input_data_sorted.head(3)[["Rank", "Provider_Id", "Average_Total_Payments"]]`
(lines 142-145): 1-based rank by sorted position, then the first three rows
projected to the three output columns. -/
def rank_and_take3 (sorted : List (CandidateRow × Int)) : List RankedRow :=
  (sorted.enum.map fun ir =>
    ({ Rank := ir.1 + 1, Provider_Id := ir.2.1.Provider_Id,
       Average_Total_Payments := ir.2.2 } : RankedRow)).take 3

/-- The body of the `Find Best Hospitals` handler's `try` block
(lines 115-145): encode the two labels, build the candidate table, predict,
sort ascending by predicted cost, rank, and keep the top three.  Each
`match` propagates a raised exception exactly as the Python `try` block
does. -/
def find_best_hospitals (a : Artifacts) (service_type : ServiceType)
    (procedure state : String) : Except String (List RankedRow) :=
  match transform (select_artifacts a service_type).2.1 procedure with
  | Except.error e => Except.error e
  | Except.ok encoded_procedure =>
    match transform (select_artifacts a service_type).2.2 state with
    | Except.error e => Except.error e
    | Except.ok encoded_state =>
      match (select_artifacts a service_type).1
          (input_data encoded_procedure encoded_state) with
      | Except.error e => Except.error e
      | Except.ok preds =>
        match assign_payments (input_data encoded_procedure encoded_state)
            preds with
        | Except.error e => Except.error e
        | Except.ok table =>
            Except.ok (rank_and_take3
              (table.mergeSort fun x y => decide (x.2 ≤ y.2)))

/-- What the user sees after clicking `Find Best Hospitals`. -/
inductive UiOutcome
  | table (rows : List RankedRow)
  | errorMsg (msg : String)
deriving DecidableEq, Repr

/-- The full `Find Best Hospitals` click handler (lines 114-152): the `try`
block above wrapped in `except Exception as e` displaying the message.
The session state is threaded through unchanged: the handler's source
contains no write to `st.session_state`. -/
def find_best_hospitals_click (s : Session) (a : Artifacts)
    (service_type : ServiceType) (procedure state : String) :
    Session × UiOutcome :=
  (s, match find_best_hospitals a service_type procedure state with
      | Except.ok t => UiOutcome.table t
      | Except.error e => UiOutcome.errorMsg ("⚠️ Error: " ++ e))

/-- A concrete row-wise predictor for evaluating the pipeline: cost is the
provider id modulo 7, so the sort has plenty of ties. -/
def demo_predict (r : CandidateRow) : Int := (r.Provider_Id : Int) % 7

/-- A concrete artifact bundle whose models predict one cost per row. -/
def demo_artifacts : Artifacts :=
  { inpatient_model := fun rows => Except.ok (rows.map demo_predict)
    outpatient_model := fun rows => Except.ok (rows.map demo_predict)
    inpatient_le_drg := ["DRG-001", "DRG-002"]
    inpatient_le_state := ["CA", "NY"]
    outpatient_le_apc := ["APC-1"]
    outpatient_le_state := ["TX"] }

/-- A concrete artifact bundle whose models raise on every prediction. -/
def failing_artifacts : Artifacts :=
  { inpatient_model := fun _ => Except.error "boom"
    outpatient_model := fun _ => Except.error "boom"
    inpatient_le_drg := ["A"]
    inpatient_le_state := ["B"]
    outpatient_le_apc := ["A"]
    outpatient_le_state := ["B"] }

/-! ## Helper lemmas -/

/-- A label in an encoder's trained `classes_` always encodes. -/
theorem transform_ok_of_mem {le : LabelEncoder} {label : String}
    (h : label ∈ le) : ∃ k, transform le label = Except.ok k := by
  unfold transform
  rcases hf : List.findIdx? (fun c => c == label) le with _ | k
  · rw [List.findIdx?_eq_none_iff] at hf
    exact absurd (hf label h) (by simp)
  · exact ⟨k, rfl⟩

/-- A list of length at least three starts with three elements. -/
theorem exists_three_cons {α : Type} (l : List α) (h : 3 ≤ l.length) :
    ∃ x y z rest, l = x :: y :: z :: rest := by
  rcases l with _ | ⟨x, _ | ⟨y, _ | ⟨z, rest⟩⟩⟩
  · simp at h
  · simp at h
  · simp at h
  · exact ⟨x, y, z, rest, rfl⟩

/-- Shape of the ranked top-3 projection of a sorted 100-row table. -/
theorem rank_and_take3_shape {sorted : List (CandidateRow × Int)}
    (hlen : sorted.length = 100)
    (hsort : sorted.Pairwise fun x y => x.2 ≤ y.2) :
    (rank_and_take3 sorted).length = 3 ∧
    (rank_and_take3 sorted).map RankedRow.Rank = [1, 2, 3] ∧
    (rank_and_take3 sorted).Chain'
      (fun x y => x.Average_Total_Payments ≤ y.Average_Total_Payments) := by
  obtain ⟨x, y, z, rest, hxyz⟩ := exists_three_cons sorted (by omega)
  subst hxyz
  rw [List.pairwise_cons] at hsort
  obtain ⟨hx, hsort⟩ := hsort
  rw [List.pairwise_cons] at hsort
  obtain ⟨hy, -⟩ := hsort
  have hxy : x.2 ≤ y.2 := hx y (by simp)
  have hyz : y.2 ≤ z.2 := hy z (by simp)
  refine ⟨?_, ?_, ?_⟩ <;>
    simp [rank_and_take3, List.enum_cons, List.enumFrom_cons,
      List.chain'_cons, hxy, hyz]

/-! ## Theorems for the claims -/

/-- C2: `authenticate` succeeds exactly on the two stored credential pairs,
compared by exact case-sensitive string equality; every other
(username, password) pair fails. -/
theorem authCheck_iff_credentials (u p : String) :
    authCheck u p = true ↔
      (u = "admin" ∧ p = "password123") ∨ (u = "user" ∧ p = "medi123") := by
  have hau : ("admin" : String) ≠ "user" := by decide
  cases h1 : (u == "admin") with
  | true =>
      have hu : u = "admin" := by simpa using h1
      subst hu
      have he : authCheck "admin" p = ("password123" == p) := rfl
      rw [he, beq_iff_eq]
      constructor
      · intro h
        exact Or.inl ⟨rfl, h.symm⟩
      · rintro (⟨-, h⟩ | ⟨hbad, -⟩)
        · exact h.symm
        · exact absurd hbad hau
  | false =>
      have hu1 : u ≠ "admin" := by simpa using h1
      cases h2 : (u == "user") with
      | true =>
          have hu : u = "user" := by simpa using h2
          subst hu
          have he : authCheck "user" p = ("medi123" == p) := rfl
          rw [he, beq_iff_eq]
          constructor
          · intro h
            exact Or.inr ⟨rfl, h.symm⟩
          · rintro (⟨hbad, -⟩ | ⟨-, h⟩)
            · exact absurd hbad hu1
            · exact h.symm
      | false =>
          have hu2 : u ≠ "user" := by simpa using h2
          have h3 : authCheck u p = false := by
            simp only [authCheck, USER_CREDENTIALS, List.lookup, h1, h2]
          rw [h3]
          simp [hu1, hu2]

/-- C3: a successful login attempt sets the session to logged-in with the
given username; a failed one returns the prior session exactly unchanged. -/
theorem login_attempt_sets_or_preserves (s : Session) (u p : String) :
    (authCheck u p = true →
        login_attempt s u p = { logged_in := true, username := some u }) ∧
    (authCheck u p = false → login_attempt s u p = s) := by
  constructor <;> intro h <;> simp [login_attempt, h]

/-- The login transition evaluated on the spec's two scenario inputs:
a correct admin login from the logged-out state, then a wrong password. -/
theorem login_attempt_sets_or_preserves_witness :
    login_attempt { logged_in := false, username := none } "admin" "password123"
        = { logged_in := true, username := some "admin" } ∧
    login_attempt { logged_in := false, username := none } "admin" "wrong"
        = { logged_in := false, username := none } :=
  ⟨(login_attempt_sets_or_preserves
      { logged_in := false, username := none } "admin" "password123").1 (by decide),
   (login_attempt_sets_or_preserves
      { logged_in := false, username := none } "admin" "wrong").2 (by decide)⟩

/-- C4: logout resets any prior session to logged-out with no username. -/
theorem logout_resets (s : Session) :
    logout s = { logged_in := false, username := none } := rfl

/-- C9: in the initialized start state and after every sequence of login
attempts, logouts, and session re-initializations, `logged_in` is true
exactly when `username` is set. -/
theorem reachable_logged_in_iff_username (s : Session) (h : Reachable s) :
    s.logged_in = true ↔ s.username ≠ none := by
  induction h with
  | start => simp [initial_session, session_of, init_session_state, empty_raw]
  | login s' u p _ ih =>
      by_cases hc : authCheck u p = true
      · simp [login_attempt, hc]
      · simp only [login_attempt, hc, if_false, Bool.false_eq_true,
          reduceIte]
        exact ih
  | logout_click s' _ _ => simp [logout]
  | reinit s' _ ih => simpa [session_of, init_session_state, raw_of] using ih

/-- The session invariant instantiated at the reachable state reached by a
successful admin login from the start state. -/
theorem reachable_logged_in_iff_username_witness :
    (login_attempt initial_session "admin" "password123").logged_in = true ↔
      (login_attempt initial_session "admin" "password123").username ≠ none :=
  reachable_logged_in_iff_username _
    (Reachable.login initial_session "admin" "password123" Reachable.start)

/-- C7 counterexample: with the model files present but unreadable
(every open raises `PermissionError`), `load_models` neither returns the
all-`None` sentinel nor contains the exception: the error escapes the
loader boundary. -/
theorem load_models_unreadable_escapes :
    load_models (fun _ => (Except.error PyExc.permissionError : Except PyExc Unit))
        = Except.error PyExc.permissionError ∧
    load_models (fun _ => (Except.error PyExc.permissionError : Except PyExc Unit))
        ≠ Except.ok (none, none) := by
  refine ⟨rfl, fun h => ?_⟩
  rw [show load_models
        (fun _ => (Except.error PyExc.permissionError : Except PyExc Unit))
      = Except.error PyExc.permissionError from rfl] at h
  exact Except.noConfusion h

/-- C7 (amended): whenever a required file is absent (`FileNotFoundError`)
— whichever of the loader's files it is, the opens before it having
succeeded, since the `try` block opens the files in order and never reaches
a file after a raise — the loader returns the all-`None` sentinel, and
`FileNotFoundError` never escapes it; but any other exception — e.g.
`PermissionError` for a present but unreadable file — is not caught and
propagates past the loader boundary. -/
theorem loaders_catch_fileNotFound_only {α β : Type}
    (fs : String → Except PyExc α) (gs : String → Except PyExc β) :
    (fs "inpatient_model.pkl" = Except.error PyExc.fileNotFound →
        load_models fs = Except.ok (none, none)) ∧
    (∀ m1, fs "inpatient_model.pkl" = Except.ok m1 →
        fs "outpatient_model.pkl" = Except.error PyExc.fileNotFound →
        load_models fs = Except.ok (none, none)) ∧
    (∀ e, load_models fs = Except.error e → e = PyExc.permissionError) ∧
    (gs "le_drg.pkl" = Except.error PyExc.fileNotFound →
        load_encoders gs = Except.ok (none, none, none, none)) ∧
    (∀ e1, gs "le_drg.pkl" = Except.ok e1 →
        gs "le_state.pkl" = Except.error PyExc.fileNotFound →
        load_encoders gs = Except.ok (none, none, none, none)) ∧
    (∀ e1 e2, gs "le_drg.pkl" = Except.ok e1 →
        gs "le_state.pkl" = Except.ok e2 →
        gs "le_drg_outpatient.pkl" = Except.error PyExc.fileNotFound →
        load_encoders gs = Except.ok (none, none, none, none)) ∧
    (∀ e1 e2 e3, gs "le_drg.pkl" = Except.ok e1 →
        gs "le_state.pkl" = Except.ok e2 →
        gs "le_drg_outpatient.pkl" = Except.ok e3 →
        gs "le_state_outpatient.pkl" = Except.error PyExc.fileNotFound →
        load_encoders gs = Except.ok (none, none, none, none)) ∧
    (∀ e, load_encoders gs = Except.error e → e = PyExc.permissionError) := by
  refine ⟨fun h => by simp [load_models, h],
    fun m1 h1 h2 => by simp [load_models, h1, h2],
    fun e he => ?_,
    fun h => by simp [load_encoders, h],
    fun e1 h1 h2 => by simp [load_encoders, h1, h2],
    fun e1 e2 h1 h2 h3 => by simp [load_encoders, h1, h2, h3],
    fun e1 e2 e3 h1 h2 h3 h4 => by simp [load_encoders, h1, h2, h3, h4],
    fun e he => ?_⟩
  · rcases h1 : fs "inpatient_model.pkl" with e1 | m1 <;>
      simp [load_models, h1] at he
    · rcases e1 <;> simp_all
    · rcases h2 : fs "outpatient_model.pkl" with e2 | m2 <;>
        simp [h2] at he
      rcases e2 <;> simp_all
  · rcases h1 : gs "le_drg.pkl" with e1 | m1 <;>
      simp [load_encoders, h1] at he
    · rcases e1 <;> simp_all
    · rcases h2 : gs "le_state.pkl" with e2 | m2 <;> simp [h2] at he
      · rcases e2 <;> simp_all
      · rcases h3 : gs "le_drg_outpatient.pkl" with e3 | m3 <;>
          simp [h3] at he
        · rcases e3 <;> simp_all
        · rcases h4 : gs "le_state_outpatient.pkl" with e4 | m4 <;>
            simp [h4] at he
          rcases e4 <;> simp_all

/-- The amended loader contract evaluated on concrete filesystems: every
file absent; only the second model file absent; only the last encoder file
absent (each returning the sentinel); and every file unreadable (the
escaping error is `PermissionError`). -/
theorem loaders_catch_fileNotFound_only_witness :
    load_models (fun _ => (Except.error PyExc.fileNotFound : Except PyExc Unit))
        = Except.ok (none, none) ∧
    load_models (fun p => if p = "inpatient_model.pkl"
        then (Except.ok () : Except PyExc Unit)
        else Except.error PyExc.fileNotFound)
        = Except.ok (none, none) ∧
    load_encoders (fun p => if p = "le_state_outpatient.pkl"
        then (Except.error PyExc.fileNotFound : Except PyExc Unit)
        else Except.ok ())
        = Except.ok (none, none, none, none) ∧
    PyExc.permissionError = PyExc.permissionError := by
  refine ⟨?_, ?_, ?_, ?_⟩
  · exact (loaders_catch_fileNotFound_only
      (fun _ => (Except.error PyExc.fileNotFound : Except PyExc Unit))
      (fun _ => (Except.error PyExc.fileNotFound : Except PyExc Unit))).1 rfl
  · exact (loaders_catch_fileNotFound_only
      (fun p => if p = "inpatient_model.pkl"
        then (Except.ok () : Except PyExc Unit)
        else Except.error PyExc.fileNotFound)
      (fun _ => (Except.error PyExc.fileNotFound : Except PyExc Unit))).2.1
      () rfl rfl
  · exact (loaders_catch_fileNotFound_only
      (fun _ => (Except.error PyExc.fileNotFound : Except PyExc Unit))
      (fun p => if p = "le_state_outpatient.pkl"
        then (Except.error PyExc.fileNotFound : Except PyExc Unit)
        else Except.ok ())).2.2.2.2.2.2.1
      () () () rfl rfl rfl rfl
  · exact (loaders_catch_fileNotFound_only
      (fun _ => (Except.error PyExc.permissionError : Except PyExc Unit))
      (fun _ => (Except.error PyExc.permissionError : Except PyExc Unit))).2.2.1
      PyExc.permissionError rfl

/-- C6: the candidate table has exactly 100 rows; the i-th row carries
provider id 520000 + i (so the ids are 520000..520099 in ascending order),
the shared encoded procedure and state, and the placeholder constants
Total_Discharge = 100 and Avg_covered_charges = 15000. -/
theorem input_data_rows (encoded_procedure encoded_state : Nat) :
    (input_data encoded_procedure encoded_state).length = 100 ∧
    ∀ i : Nat, i < 100 →
      (input_data encoded_procedure encoded_state)[i]? =
        some { Procedure := encoded_procedure, Provider_Id := 520000 + i,
               Provider_State := encoded_state, Total_Discharge := 100,
               Avg_covered_charges := 15000 } := by
  refine ⟨by simp [input_data, provider_ids], fun i hi => ?_⟩
  simp [input_data, provider_ids, List.getElem?_range' _ _ hi]

/-- The candidate-table shape evaluated at concrete codes and the last
row. -/
theorem input_data_rows_witness :
    (input_data 3 7).length = 100 ∧
    (input_data 3 7)[99]? =
      some { Procedure := 3, Provider_Id := 520000 + 99, Provider_State := 7,
             Total_Discharge := 100, Avg_covered_charges := 15000 } :=
  ⟨(input_data_rows 3 7).1, (input_data_rows 3 7).2 99 (by decide)⟩

/-- C8: a success of the try block is rendered as the result table, and any
exception raised inside it — label encoding, table construction, or model
prediction — is caught by the handler and surfaced as a user-visible error
message carrying the underlying text.  The handler's result type has no
exception case, so no exception escapes it. -/
theorem click_surfaces_errors (s : Session) (a : Artifacts)
    (service_type : ServiceType) (procedure state : String) :
    (∀ t, find_best_hospitals a service_type procedure state = Except.ok t →
        (find_best_hospitals_click s a service_type procedure state).2
          = UiOutcome.table t) ∧
    (∀ e, find_best_hospitals a service_type procedure state = Except.error e →
        (find_best_hospitals_click s a service_type procedure state).2
          = UiOutcome.errorMsg ("⚠️ Error: " ++ e)) := by
  constructor <;> intro x h <;> simp [find_best_hospitals_click, h]

/-- The error path evaluated concretely: with valid labels but a model that
raises "boom", the click handler shows the message and does not crash. -/
theorem click_surfaces_errors_witness :
    (find_best_hospitals_click { logged_in := true, username := some "admin" }
        failing_artifacts ServiceType.Inpatient "A" "B").2
      = UiOutcome.errorMsg ("⚠️ Error: " ++ "boom") :=
  (click_surfaces_errors { logged_in := true, username := some "admin" }
      failing_artifacts ServiceType.Inpatient "A" "B").2 "boom" rfl

/-- C10: the `Find Best Hospitals` handler leaves the session exactly as it
found it, whether the pipeline succeeds or fails; its source contains no
write to `st.session_state`, so only login and logout change the
session. -/
theorem click_preserves_session (s : Session) (a : Artifacts)
    (service_type : ServiceType) (procedure state : String) :
    (find_best_hospitals_click s a service_type procedure state).1 = s := rfl

/-- C1: for either service type, labels inside the matching encoders'
trained sets, and the selected model predicting one cost per row, the
pipeline succeeds and returns exactly three rows whose Rank column is
[1, 2, 3] in order and whose Average_Total_Payments column is
non-decreasing. -/
theorem find_best_hospitals_top3 (a : Artifacts) (service_type : ServiceType)
    (f : CandidateRow → Int) (procedure state : String)
    (hmodel : (select_artifacts a service_type).1
        = fun rows => Except.ok (rows.map f))
    (hproc : procedure ∈ (select_artifacts a service_type).2.1)
    (hstate : state ∈ (select_artifacts a service_type).2.2) :
    ∃ out : List RankedRow,
      find_best_hospitals a service_type procedure state = Except.ok out ∧
      out.length = 3 ∧
      out.map RankedRow.Rank = [1, 2, 3] ∧
      out.Chain' (fun x y =>
        x.Average_Total_Payments ≤ y.Average_Total_Payments) := by
  obtain ⟨ep, hep⟩ := transform_ok_of_mem hproc
  obtain ⟨es, hes⟩ := transform_ok_of_mem hstate
  have hrows : (input_data ep es).length = 100 := by
    simp [input_data, provider_ids]
  have hassign : assign_payments (input_data ep es) ((input_data ep es).map f)
      = Except.ok ((input_data ep es).zip ((input_data ep es).map f)) := by
    simp [assign_payments]
  have hfb : find_best_hospitals a service_type procedure state
      = Except.ok (rank_and_take3
          (((input_data ep es).zip ((input_data ep es).map f)).mergeSort
            fun x y => decide (x.2 ≤ y.2))) := by
    simp only [find_best_hospitals, hep, hes, hmodel, hassign]
  set sorted := ((input_data ep es).zip ((input_data ep es).map f)).mergeSort
      (fun x y => decide (x.2 ≤ y.2)) with hsorted
  have hslen : sorted.length = 100 := by
    rw [hsorted]
    simp [hrows]
  have hsort0 : sorted.Pairwise
      (fun x y : CandidateRow × Int => decide (x.2 ≤ y.2) = true) := by
    rw [hsorted]
    exact List.sorted_mergeSort
      (fun a b c hab hbc => by
        simp only [decide_eq_true_eq] at hab hbc ⊢
        exact le_trans hab hbc)
      (fun a b => by
        simp only [Bool.or_eq_true, decide_eq_true_eq]
        exact Int.le_total a.2 b.2)
      ((input_data ep es).zip ((input_data ep es).map f))
  have hsort : sorted.Pairwise fun x y => x.2 ≤ y.2 := by
    simpa using hsort0
  obtain ⟨h1, h2, h3⟩ := rank_and_take3_shape hslen hsort
  exact ⟨_, hfb, h1, h2, h3⟩

/-- The pipeline guarantee evaluated at the spec's §8 scenario: Inpatient
service, trained labels "DRG-001" and "CA", and a concrete per-row model. -/
theorem find_best_hospitals_top3_witness :
    ∃ out : List RankedRow,
      find_best_hospitals demo_artifacts ServiceType.Inpatient "DRG-001" "CA"
          = Except.ok out ∧
      out.length = 3 ∧
      out.map RankedRow.Rank = [1, 2, 3] ∧
      out.Chain' (fun x y =>
        x.Average_Total_Payments ≤ y.Average_Total_Payments) :=
  find_best_hospitals_top3 demo_artifacts ServiceType.Inpatient demo_predict
    "DRG-001" "CA" rfl
    (by simp [demo_artifacts, select_artifacts])
    (by simp [demo_artifacts, select_artifacts])

end HealthcareAnalysis
